import Mathlib

/-!
Shallow embedding of the `prometheus` Ansible callback plugin
(`library/prometheus.py`): an in-memory metrics aggregation core that
accumulates per-(play, host, status) counters and per-(play, host) duration
gauges over a stream of playbook lifecycle events, then writes a Prometheus
textfile snapshot.

Modelling choices:
- Python strings are `String`; the current play name is `Option String`
  because `self._play_name` is initialised to `None`.
- `time.time()` values are rationals (`ℚ`); Python's `int()` truncation
  toward zero is `pyInt`.
- The Prometheus label maps (`Gauge.labels(...)`) are total functions from
  label tuples to values, initially zero, matching prometheus_client's
  default of 0 for fresh label children.
- Python's `dict` for `self._task_data` is `String → Option TaskData`;
  `self._task_data[uuid]` on a missing key raises `KeyError`, modelled with
  `Except PyError`.
- Environment variables are `Option String` fields of `Env`; `os.getenv`
  with a default is `getenvD`.
-/

namespace Prom

/-- Python `int()` applied to a rational: truncation toward zero
(`Int.tdiv` truncates toward zero; the denominator of a `ℚ` is positive). -/
def pyInt (q : ℚ) : ℤ := Int.tdiv q.num (q.den : ℤ)

/-- Python `str.lower()`, as used on the boolean-ish environment variables
(ASCII case folding, character by character). -/
def strLower (s : String) : String := ⟨s.data.map Char.toLower⟩

/-- The external constant `ansible.constants._ACTION_SETUP`: the action
names of the "setup" (fact gathering) category.  External to this
repository; its exact contents do not matter to the theorems, which only
use membership. -/
def ACTION_SETUP : List String :=
  ["setup", "ansible.builtin.setup", "ansible.legacy.setup"]

/-- Embeds `os.path.basename`: the part of the path after the last slash. -/
def basename (p : String) : String :=
  ((p.splitOn "/").getLast?).getD p

/-- The environment variables read by `CallbackModule.__init__`, each
`none` when unset. -/
structure Env where
  output_file : Option String
  fail_on_change : Option String
  fail_on_ignore : Option String
  include_setup_tasks : Option String
deriving DecidableEq, Repr

/-- Embeds `os.getenv(name, default)`. -/
def getenvD (v : Option String) (d : String) : String := v.getD d

/-- Embeds `class TaskData`: data about an individual task, created by
`_start_task`. -/
structure TaskData where
  play : Option String
  action : String
  start_time : ℚ
deriving DecidableEq, Repr

/-- Errors the embedded Python code can raise: `KeyError` from
`self._task_data[task_uuid]` on an unknown uuid (the spec's `UnknownTask`),
and `TypeError` from `finish_time - self._start_time` when
`self._start_time` is still `None`. -/
inductive PyError where
  | keyError : String → PyError
  | typeError : PyError
deriving DecidableEq, Repr

/-- The mutable state of one `CallbackModule` instance: configuration
captured in `__init__`, run state, the task registry, and the registered
metrics (as label-keyed value maps). -/
structure CallbackState where
  output_file : String
  fail_on_change : String
  fail_on_ignore : String
  include_setup_tasks : String
  play_name : Option String
  start_time : Option ℚ
  task_data : String → Option TaskData
  playbook_info : Option String
  playbook_duration : ℤ
  tasks_duration : Option String → String → ℤ
  tasks_status : Option String → String → String → ℕ

/-- Embeds `CallbackModule.__init__`: reads the four environment variables (the
three boolean-ish ones lower-cased), initialises run state to `None`/empty,
and registers the metrics (all label children start at 0). -/
def initState (env : Env) : CallbackState :=
  { output_file := getenvD env.output_file "/var/lib/prometheus/node_exporter"
    fail_on_change := strLower (getenvD env.fail_on_change "False")
    fail_on_ignore := strLower (getenvD env.fail_on_ignore "False")
    include_setup_tasks := strLower (getenvD env.include_setup_tasks "True")
    play_name := none
    start_time := none
    task_data := fun _ => none
    playbook_info := none
    playbook_duration := 0
    tasks_duration := fun _ _ => 0
    tasks_status := fun _ _ _ => 0 }

/-- The default value the plugin's own DOCUMENTATION block declares for the
`output_file` option. -/
def documentedOutputFileDefault : String :=
  "/var/lib/prometheus/node_exporter/ansible.prom"

/-- Embeds `self._metric_tasks_status.labels(play, host, status).inc(1)`. -/
def incStatus (s : CallbackState) (play : Option String) (host status : String) :
    CallbackState :=
  { s with tasks_status := fun p h st =>
      if p = play ∧ h = host ∧ st = status then s.tasks_status p h st + 1
      else s.tasks_status p h st }

/-- Embeds `self._metric_tasks_duration.labels(play, host).inc(n)`. -/
def incDuration (s : CallbackState) (play : Option String) (host : String) (n : ℤ) :
    CallbackState :=
  { s with tasks_duration := fun p h =>
      if p = play ∧ h = host then s.tasks_duration p h + n
      else s.tasks_duration p h }

/-- Embeds `_start_playbook`: records the playbook name info and the run start
time. -/
def startPlaybook (s : CallbackState) (path : String) (now : ℚ) : CallbackState :=
  { s with playbook_info := some (basename path), start_time := some now }

/-- Embeds `v2_playbook_on_play_start`: `self._play_name = play.get_name()`. -/
def onPlayStart (s : CallbackState) (name : String) : CallbackState :=
  { s with play_name := some name }

/-- Embeds `_start_task`: a no-op when the uuid is already registered, otherwise
inserts a `TaskData` with the current play name and `start_time = now`. -/
def startTask (s : CallbackState) (uuid action : String) (now : ℚ) : CallbackState :=
  match s.task_data uuid with
  | some _ => s
  | none =>
      { s with task_data := fun u =>
          if u = uuid then some ⟨s.play_name, action, now⟩ else s.task_data u }

/-- The status rewrite inside `_finish_task`:
`if self._fail_on_change == 'true' and status == 'ok' and changed:
status = 'failed'`. -/
def classifyOnChange (fail_on_change status : String) (changed : Bool) : String :=
  if fail_on_change = "true" ∧ status = "ok" ∧ changed then "failed" else status

/-- Embeds `_finish_task(status, result)`: looks the task up (KeyError when
absent), drops setup-category tasks when `include_setup_tasks == 'false'`,
applies the `fail_on_change` rewrite, increments the status counter, the
`changed` counter when `changed`, and the duration gauge by the truncated
elapsed time. -/
def finishTask (s : CallbackState) (status uuid host : String) (changed : Bool)
    (now : ℚ) : Except PyError CallbackState :=
  match s.task_data uuid with
  | none => .error (.keyError uuid)
  | some td =>
      if td.action ∈ ACTION_SETUP ∧ s.include_setup_tasks = "false" then
        .ok s
      else
        let play := td.play
        let status := classifyOnChange s.fail_on_change status changed
        let s := incStatus s play host status
        let s := if changed then incStatus s play host "changed" else s
        let s := incDuration s play host (pyInt (now - td.start_time))
        .ok s

/-- Embeds `v2_runner_on_failed(result, ignore_errors)`: reclassifies to `ok` when
`ignore_errors` and `self._fail_on_ignore != 'true'`, otherwise finishes as
`failed`. -/
def onFailed (s : CallbackState) (uuid host : String) (changed : Bool)
    (ignore_errors : Bool) (now : ℚ) : Except PyError CallbackState :=
  if ignore_errors ∧ s.fail_on_ignore ≠ "true" then
    finishTask s "ok" uuid host changed now
  else
    finishTask s "failed" uuid host changed now

/-- Embeds `v2_runner_on_ok(result)`. -/
def onOk (s : CallbackState) (uuid host : String) (changed : Bool) (now : ℚ) :
    Except PyError CallbackState :=
  finishTask s "ok" uuid host changed now

/-- Embeds `v2_runner_on_skipped(result)`. -/
def onSkipped (s : CallbackState) (uuid host : String) (changed : Bool) (now : ℚ) :
    Except PyError CallbackState :=
  finishTask s "skipped" uuid host changed now

/-- Embeds `v2_playbook_on_stats`: `_finish_playbook` increments the playbook
duration gauge by the truncated elapsed run time (a `TypeError` if the run
never started), then `write_metrics_textfile` writes the snapshot to
`self._output_file` (I/O, no state change). -/
def onStats (s : CallbackState) (now : ℚ) : Except PyError CallbackState :=
  match s.start_time with
  | none => .error .typeError
  | some t => .ok { s with playbook_duration := s.playbook_duration + pyInt (now - t) }

/-- An environment with no variables set: the defaults-only configuration. -/
def env0 : Env := ⟨none, none, none, none⟩

/-- An environment that enables `fail_on_change` (value as typically set,
upper-cased first letter, lower-cased by `__init__`). -/
def envFoc : Env := ⟨none, some "True", none, none⟩

/-- An environment that disables `include_setup_tasks`. -/
def envNoSetup : Env := ⟨none, none, none, some "False"⟩

/-- An environment giving `include_setup_tasks` a string that is not a
valid boolean. -/
def envGarbage : Env := ⟨none, none, none, some "garbage"⟩

/-- Unfolding of `_finish_task` on a registered, non-setup-excluded task:
status counter increment at the classified status, a `changed` increment
when `changed`, then the duration increment. -/
theorem finishTask_some (s : CallbackState) (st uuid host : String)
    (changed : Bool) (now : ℚ) (td : TaskData)
    (h : s.task_data uuid = some td)
    (hsetup : ¬(td.action ∈ ACTION_SETUP ∧ s.include_setup_tasks = "false")) :
    finishTask s st uuid host changed now =
      .ok (incDuration
            (if changed then
              incStatus (incStatus s td.play host
                  (classifyOnChange s.fail_on_change st changed)) td.play host "changed"
             else
              incStatus s td.play host (classifyOnChange s.fail_on_change st changed))
            td.play host (pyInt (now - td.start_time))) := by
  simp only [finishTask, h, if_neg hsetup]

/-- Lemma: `incStatus` leaves the duration gauge alone. -/
theorem tasks_duration_incStatus (s : CallbackState) (p : Option String)
    (h st : String) : (incStatus s p h st).tasks_duration = s.tasks_duration := rfl

/-- Lemma: `incDuration` leaves the status counters alone. -/
theorem tasks_status_incDuration (s : CallbackState) (p : Option String)
    (h : String) (n : ℤ) : (incDuration s p h n).tasks_status = s.tasks_status := rfl

/-- Pointwise value of the status counter after an `incStatus`. -/
theorem tasks_status_incStatus (s : CallbackState) (p : Option String)
    (h st : String) (p' : Option String) (h' st' : String) :
    (incStatus s p h st).tasks_status p' h' st' =
      if p' = p ∧ h' = h ∧ st' = st then s.tasks_status p' h' st' + 1
      else s.tasks_status p' h' st' := rfl

/-- Pointwise value of the duration gauge after an `incDuration`. -/
theorem tasks_duration_incDuration (s : CallbackState) (p : Option String)
    (h : String) (n : ℤ) (p' : Option String) (h' : String) :
    (incDuration s p h n).tasks_duration p' h' =
      if p' = p ∧ h' = h then s.tasks_duration p' h' + n
      else s.tasks_duration p' h' := rfl

/-- C3: with no configuration supplied, the snapshot is written to
`/var/lib/prometheus/node_exporter` — the directory, not the
`.../ansible.prom` file the plugin's own DOCUMENTATION block declares as
the default.  The code contradicts its documentation. -/
theorem c3_output_file_default_mismatch :
    (initState env0).output_file = "/var/lib/prometheus/node_exporter" ∧
    documentedOutputFileDefault = "/var/lib/prometheus/node_exporter/ansible.prom" ∧
    (initState env0).output_file ≠ documentedOutputFileDefault := by
  refine ⟨rfl, rfl, ?_⟩
  decide

/-- C4: `_start_task` (the registry's `begin`) is idempotent: when the
uuid is already registered, a later call is a no-op — the state, and in
particular the registered `TaskData` with its original play, action and
start time, is unchanged. -/
theorem c4_begin_idempotent (s : CallbackState) (uuid action : String)
    (now : ℚ) (h : (s.task_data uuid).isSome = true) :
    startTask s uuid action now = s := by
  obtain ⟨td, htd⟩ := Option.isSome_iff_exists.mp h
  simp [startTask, htd]

/-- The state after `begin(t1, ...)` at the defaults-only configuration. -/
def s4 : CallbackState := startTask (initState env0) "t1" "debug" 0

/-- Witness for C4: a second `begin` for `t1` with a different action and
time leaves the state unchanged. -/
theorem c4_begin_idempotent_witness : startTask s4 "t1" "shell" 5 = s4 :=
  c4_begin_idempotent s4 "t1" "shell" 5 (by decide)

/-- C5: a task-result for a uuid never passed to `_start_task` raises
`KeyError` (the spec's `UnknownTask`) from `self._task_data[task_uuid]`,
through every runner entry point; the error is returned to the caller and
no updated state — hence no counter update — is produced. -/
theorem c5_unknown_task_key_error (s : CallbackState) (st uuid host : String)
    (changed ie : Bool) (now : ℚ) (h : s.task_data uuid = none) :
    finishTask s st uuid host changed now = .error (.keyError uuid) ∧
    onOk s uuid host changed now = .error (.keyError uuid) ∧
    onSkipped s uuid host changed now = .error (.keyError uuid) ∧
    onFailed s uuid host changed ie now = .error (.keyError uuid) := by
  have hf : ∀ st', finishTask s st' uuid host changed now = .error (.keyError uuid) := by
    intro st'
    simp [finishTask, h]
  refine ⟨hf st, hf "ok", hf "skipped", ?_⟩
  unfold onFailed
  split <;> exact hf _

/-- Witness for C5: at the freshly initialised state, a result for the
never-started uuid `tX` errors through every entry point. -/
theorem c5_unknown_task_key_error_witness :
    finishTask (initState env0) "ok" "tX" "h1" false 1 = .error (.keyError "tX") ∧
    onOk (initState env0) "tX" "h1" false 1 = .error (.keyError "tX") ∧
    onSkipped (initState env0) "tX" "h1" false 1 = .error (.keyError "tX") ∧
    onFailed (initState env0) "tX" "h1" false true 1 = .error (.keyError "tX") :=
  c5_unknown_task_key_error (initState env0) "ok" "tX" "h1" false true 1 rfl

/-- C6: a setup-category task with `include_setup_tasks == 'false'` is
dropped before any metric update: `_finish_task` returns with the state
exactly unchanged — status counter, changed counter and duration gauge
included. -/
theorem c6_setup_excluded_noop (s : CallbackState) (st uuid host : String)
    (changed : Bool) (now : ℚ) (td : TaskData)
    (h : s.task_data uuid = some td) (ha : td.action ∈ ACTION_SETUP)
    (hc : s.include_setup_tasks = "false") :
    finishTask s st uuid host changed now = .ok s := by
  simp [finishTask, h, ha, hc]

/-- The state after starting a setup task under
`PROMETHEUS_INCLUDE_SETUP_TASKS=False`. -/
def s6 : CallbackState := startTask (initState envNoSetup) "t1" "setup" 0

/-- Witness for C6: finishing the setup task leaves the state unchanged. -/
theorem c6_setup_excluded_noop_witness :
    finishTask s6 "ok" "t1" "h1" true 3 = .ok s6 :=
  c6_setup_excluded_noop s6 "ok" "t1" "h1" true 3 ⟨none, "setup", 0⟩
    (by decide) (by decide) (by decide)

/-- Lemma: `_start_task` never changes the configuration or the metrics, only the
task registry. -/
theorem startTask_preserves (s : CallbackState) (uuid action : String) (now : ℚ) :
    (startTask s uuid action now).include_setup_tasks = s.include_setup_tasks ∧
    (startTask s uuid action now).fail_on_change = s.fail_on_change ∧
    (startTask s uuid action now).tasks_status = s.tasks_status := by
  unfold startTask
  split <;> exact ⟨rfl, rfl, rfl⟩

/-- Truncation of a non-negative rational is non-negative. -/
theorem pyInt_nonneg {q : ℚ} (hq : 0 ≤ q) : 0 ≤ pyInt q :=
  Int.tdiv_nonneg (Rat.num_nonneg.mpr hq) (Int.ofNat_nonneg q.den)

/-- On non-negative rationals, Python's `int()` truncation coincides with
the floor. -/
theorem pyInt_eq_floor {q : ℚ} (hq : 0 ≤ q) : pyInt q = ⌊q⌋ := by
  rw [pyInt, Int.tdiv_eq_ediv (Rat.num_nonneg.mpr hq) (Int.ofNat_nonneg q.den),
    Rat.floor_def]

/-- The state after `begin(t1, action=shell)` under
`PROMETHEUS_FAIL_ON_CHANGE=True`. -/
def s1c : CallbackState := startTask (initState envFoc) "t1" "shell" 0

/-- Counterexample to C1 as stated: with `fail_on_change=true`, a raw
failed result with `changed`, `ignore_errors`, and `fail_on_ignore` off is
counted as `failed`, not `ok` — the `fail_on_change` rewrite is applied to
the status already reclassified by the ignore-errors rule. -/
theorem c1_counterexample :
    (onFailed s1c "t1" "h1" true true 1).map
        (fun s => (s.tasks_status none "h1" "failed", s.tasks_status none "h1" "ok"))
      = .ok (1, 0) := by
  rfl

/-- C1 as amended: rule 1 (ignore-errors) does fire first and reclassifies
the raw failed status to `ok`, but `_finish_task` then applies the
`fail_on_change` rewrite to that reclassified status, so with `changed`
and `fail_on_change=true` the final status is `failed` (no `ok` increment),
while the `changed` increment still happens. -/
theorem c1_ignore_then_fail_on_change (s : CallbackState) (uuid host : String)
    (now : ℚ) (td : TaskData)
    (h : s.task_data uuid = some td)
    (hsetup : ¬(td.action ∈ ACTION_SETUP ∧ s.include_setup_tasks = "false"))
    (hfi : s.fail_on_ignore ≠ "true")
    (hfc : s.fail_on_change = "true") :
    (onFailed s uuid host true true now).map
        (fun s2 => (s2.tasks_status td.play host "failed",
                    s2.tasks_status td.play host "ok",
                    s2.tasks_status td.play host "changed"))
      = .ok (s.tasks_status td.play host "failed" + 1,
             s.tasks_status td.play host "ok",
             s.tasks_status td.play host "changed" + 1) := by
  have h1 : onFailed s uuid host true true now = finishTask s "ok" uuid host true now := by
    simp [onFailed, hfi]
  have hcl : classifyOnChange s.fail_on_change "ok" true = "failed" := by
    simp [classifyOnChange, hfc]
  rw [h1, finishTask_some s "ok" uuid host true now td h hsetup, hcl]
  simp [Except.map, tasks_status_incDuration, tasks_status_incStatus]

/-- Witness for the amended C1, at the `fail_on_change=True` state. -/
theorem c1_ignore_then_fail_on_change_witness :
    (onFailed s1c "t1" "h1" true true 1).map
        (fun s2 => (s2.tasks_status none "h1" "failed",
                    s2.tasks_status none "h1" "ok",
                    s2.tasks_status none "h1" "changed"))
      = .ok (s1c.tasks_status none "h1" "failed" + 1,
             s1c.tasks_status none "h1" "ok",
             s1c.tasks_status none "h1" "changed" + 1) :=
  c1_ignore_then_fail_on_change s1c "t1" "h1" 1 ⟨none, "shell", 0⟩
    (by decide) (by decide) (by decide) (by decide)

/-- C2: for a non-setup-excluded result with `changed`, the `changed`
counter for (play, host) is incremented in addition to the counter of the
classified status, whatever that classification produced. -/
theorem c2_changed_increment (s : CallbackState) (st uuid host : String)
    (now : ℚ) (td : TaskData)
    (h : s.task_data uuid = some td)
    (hsetup : ¬(td.action ∈ ACTION_SETUP ∧ s.include_setup_tasks = "false"))
    (hst : st ≠ "changed") :
    (finishTask s st uuid host true now).map
        (fun s2 => (s2.tasks_status td.play host "changed",
                    s2.tasks_status td.play host (classifyOnChange s.fail_on_change st true)))
      = .ok (s.tasks_status td.play host "changed" + 1,
             s.tasks_status td.play host (classifyOnChange s.fail_on_change st true) + 1) := by
  have hne : classifyOnChange s.fail_on_change st true ≠ "changed" := by
    unfold classifyOnChange
    split
    · decide
    · exact hst
  rw [finishTask_some s st uuid host true now td h hsetup]
  simp [Except.map, tasks_status_incDuration, tasks_status_incStatus, hne, hne.symm]

/-- Witness for C2: a raw failed result (final status stays `failed`) with
`changed` increments both the `failed` and the `changed` counters. -/
theorem c2_changed_increment_witness :
    (finishTask s4 "failed" "t1" "h1" true 2).map
        (fun s2 => (s2.tasks_status none "h1" "changed",
                    s2.tasks_status none "h1" (classifyOnChange s4.fail_on_change "failed" true)))
      = .ok (s4.tasks_status none "h1" "changed" + 1,
             s4.tasks_status none "h1" (classifyOnChange s4.fail_on_change "failed" true) + 1) :=
  c2_changed_increment s4 "failed" "t1" "h1" 2 ⟨none, "debug", 0⟩
    (by decide) (by decide) (by decide)

/-- The state after `begin(t1, action=setup)` under
`PROMETHEUS_INCLUDE_SETUP_TASKS=garbage`. -/
def s7 : CallbackState := startTask (initState envGarbage) "t1" "setup" 0

/-- Counterexample to C7 as stated: the invalid boolean string `garbage`
for `include_setup_tasks` is kept verbatim, and a setup-category task is
still counted — the option behaves as `true` (its truthy interpretation,
matching its default), not as its falsy interpretation, which would have
dropped the event. -/
theorem c7_counterexample :
    (initState envGarbage).include_setup_tasks = "garbage" ∧
    (onOk s7 "t1" "h1" false 1).map (fun s => s.tasks_status none "h1" "ok")
      = .ok 1 := by
  exact ⟨rfl, rfl⟩

/-- C7 as amended: invalid boolean strings never raise; each option is a
single comparison with one lowercase literal, so an unrecognized string
makes the comparison fail.  For `fail_on_change` (compared to `'true'`)
and `fail_on_ignore` (compared to `'true'`) this is the falsy
interpretation; for `include_setup_tasks` (compared to `'false'`) it is
the truthy one, so setup tasks are still counted. -/
theorem c7_invalid_boolean_coercion :
    (∀ (v st : String) (changed : Bool), v ≠ "true" →
        classifyOnChange v st changed = st) ∧
    (∀ (s : CallbackState) (uuid host : String) (ch : Bool) (now : ℚ),
        s.fail_on_ignore ≠ "true" →
        onFailed s uuid host ch true now = finishTask s "ok" uuid host ch now) ∧
    (∀ (s : CallbackState) (uuid host : String) (now : ℚ) (td : TaskData),
        s.include_setup_tasks ≠ "false" → s.task_data uuid = some td →
        (finishTask s "ok" uuid host false now).map
            (fun s2 => s2.tasks_status td.play host "ok")
          = .ok (s.tasks_status td.play host "ok" + 1)) := by
  refine ⟨?_, ?_, ?_⟩
  · intro v st changed hv
    unfold classifyOnChange
    rw [if_neg]
    rintro ⟨h1, -⟩
    exact hv h1
  · intro s uuid host ch now hfi
    simp [onFailed, hfi]
  · intro s uuid host now td hinc h
    have hcl : classifyOnChange s.fail_on_change "ok" false = "ok" := by
      simp [classifyOnChange]
    rw [finishTask_some s "ok" uuid host false now td h (fun hx => hinc hx.2), hcl]
    simp [Except.map, tasks_status_incDuration, tasks_status_incStatus]

/-- Witness for the amended C7, with the invalid string `garbage`: the
`fail_on_change` rewrite does not fire, and the setup task under
`include_setup_tasks=garbage` is still counted. -/
theorem c7_invalid_boolean_coercion_witness :
    classifyOnChange "garbage" "ok" true = "ok" ∧
    (finishTask s7 "ok" "t1" "h1" false 1).map
        (fun s2 => s2.tasks_status none "h1" "ok")
      = .ok (s7.tasks_status none "h1" "ok" + 1) :=
  ⟨c7_invalid_boolean_coercion.1 "garbage" "ok" true (by decide),
   c7_invalid_boolean_coercion.2.2 s7 "t1" "h1" 1 ⟨none, "setup", 0⟩
     (by decide) (by decide)⟩

/-- The state just before `playbook_stats`: playbook started at time 0,
play `site` started, task `t1` begun at time 1. -/
def s8 : CallbackState :=
  startTask (onPlayStart (startPlaybook (initState env0) "site.yml" 0) "site")
    "t1" "debug" 1

/-- Counterexample to C8 as stated: a task-result delivered after the
`playbook_stats` event is not surfaced as an error — it is processed
normally and increments the status counter. -/
theorem c8_counterexample :
    ((onStats s8 2).bind (fun s => onOk s "t1" "h1" false 3)).map
        (fun s => s.tasks_status (some "site") "h1" "ok")
      = .ok 1 := by
  rfl

/-- C8 as amended: the implementation keeps no terminal state.  After
`playbook_stats` (which only adds to the playbook duration gauge and
writes the snapshot), subsequent events are handled exactly as during the
run: a task-result for a known, non-excluded task still succeeds and
increments its status counter rather than being rejected. -/
theorem c8_no_terminal_state (s : CallbackState) (t now : ℚ)
    (uuid host : String) (now2 : ℚ) (td : TaskData)
    (hs : s.start_time = some t)
    (h : s.task_data uuid = some td)
    (hsetup : ¬(td.action ∈ ACTION_SETUP ∧ s.include_setup_tasks = "false")) :
    ((onStats s now).bind (fun s1 => onOk s1 uuid host false now2)).map
        (fun s2 => s2.tasks_status td.play host "ok")
      = .ok (s.tasks_status td.play host "ok" + 1) := by
  have hcl : classifyOnChange s.fail_on_change "ok" false = "ok" := by
    simp [classifyOnChange]
  simp only [onStats, hs, Except.bind, onOk]
  rw [finishTask_some
      { s with start_time := some t
               playbook_duration := s.playbook_duration + pyInt (now - t) }
      "ok" uuid host false now2 td h hsetup, hcl]
  simp [Except.map, tasks_status_incDuration, tasks_status_incStatus]

/-- Witness for the amended C8, at the concrete pre-stats state. -/
theorem c8_no_terminal_state_witness :
    ((onStats s8 2).bind (fun s1 => onOk s1 "t1" "h1" false 3)).map
        (fun s2 => s2.tasks_status (some "site") "h1" "ok")
      = .ok (s8.tasks_status (some "site") "h1" "ok" + 1) :=
  c8_no_terminal_state s8 0 2 "t1" "h1" 3 ⟨some "site", "debug", 1⟩
    (by decide) (by decide) (by decide)

/-- The state after `begin(t1)` with no play ever started: the task's play
is the initial `None`. -/
def s9 : CallbackState := startTask (initState env0) "t1" "debug" 0

/-- Counterexample to C9 as stated: a task-result arriving before any
play-start is recorded without error, but under the unset (`None`) play
key — the empty-string play key stays untouched, so the claim's
"empty-string play label" is not where the result lands. -/
theorem c9_counterexample :
    (onOk s9 "t1" "h1" false 2).map
        (fun s => (s.tasks_status none "h1" "ok", s.tasks_status (some "") "h1" "ok"))
      = .ok (1, 0) := by
  rfl

/-- C9 as amended: a task-result arriving before any play-start does not
fail — it is recorded under the unset (`None`) play value, which forms its
own distinct series key (rendered `None` by the metrics client), distinct
from the empty-string key, which is left unchanged. -/
theorem c9_unset_play_recorded (s : CallbackState) (uuid action host : String)
    (now0 now : ℚ)
    (hp : s.play_name = none)
    (h : s.task_data uuid = none)
    (hsetup : ¬(action ∈ ACTION_SETUP ∧ s.include_setup_tasks = "false")) :
    (onOk (startTask s uuid action now0) uuid host false now).map
        (fun s2 => (s2.tasks_status none host "ok", s2.tasks_status (some "") host "ok"))
      = .ok (s.tasks_status none host "ok" + 1, s.tasks_status (some "") host "ok") := by
  have hins : (startTask s uuid action now0).task_data uuid = some ⟨none, action, now0⟩ := by
    simp [startTask, h, hp]
  have hpre := startTask_preserves s uuid action now0
  have hcl : ∀ v, classifyOnChange v "ok" false = "ok" := by
    intro v
    simp [classifyOnChange]
  unfold onOk
  rw [finishTask_some _ "ok" uuid host false now ⟨none, action, now0⟩ hins
      (by rw [hpre.1]; exact hsetup), hcl]
  simp [Except.map, tasks_status_incDuration, tasks_status_incStatus, hpre.2.2]

/-- Witness for the amended C9, from the freshly initialised state. -/
theorem c9_unset_play_recorded_witness :
    (onOk (startTask (initState env0) "t1" "debug" 0) "t1" "h1" false 2).map
        (fun s2 => (s2.tasks_status none "h1" "ok", s2.tasks_status (some "") "h1" "ok"))
      = .ok ((initState env0).tasks_status none "h1" "ok" + 1,
             (initState env0).tasks_status (some "") "h1" "ok") :=
  c9_unset_play_recorded (initState env0) "t1" "debug" "h1" 0 2
    rfl rfl (by decide)

/-- C10: a non-setup-excluded task-result adds to the (play, host)
duration gauge the elapsed wall-clock time between the recorded start and
the finish, truncated by Python's `int()`; when the clock did not go
backwards that increment is non-negative (so the gauge only grows) and the
truncation is the floor of the elapsed time. -/
theorem c10_duration_accumulates (s : CallbackState) (st uuid host : String)
    (changed : Bool) (now : ℚ) (td : TaskData)
    (h : s.task_data uuid = some td)
    (hsetup : ¬(td.action ∈ ACTION_SETUP ∧ s.include_setup_tasks = "false"))
    (hle : td.start_time ≤ now) :
    (finishTask s st uuid host changed now).map
        (fun s2 => s2.tasks_duration td.play host)
      = .ok (s.tasks_duration td.play host + pyInt (now - td.start_time)) ∧
    0 ≤ pyInt (now - td.start_time) ∧
    pyInt (now - td.start_time) = ⌊now - td.start_time⌋ ∧
    s.tasks_duration td.play host ≤
      s.tasks_duration td.play host + pyInt (now - td.start_time) := by
  have hq : (0 : ℚ) ≤ now - td.start_time := by linarith
  have hnn := pyInt_nonneg hq
  refine ⟨?_, hnn, pyInt_eq_floor hq, by omega⟩
  rw [finishTask_some s st uuid host changed now td h hsetup]
  cases changed <;>
    simp [Except.map, tasks_duration_incDuration, tasks_duration_incStatus]

/-- Witness for C10: finishing `t1` (begun at time 0) at time 2 adds the
truncated elapsed time to the duration gauge. -/
theorem c10_duration_accumulates_witness :
    (finishTask s4 "ok" "t1" "h1" false 2).map
        (fun s2 => s2.tasks_duration none "h1")
      = .ok (s4.tasks_duration none "h1" + pyInt (2 - 0)) ∧
    0 ≤ pyInt (2 - 0) ∧
    pyInt (2 - 0) = ⌊(2 : ℚ) - 0⌋ ∧
    s4.tasks_duration none "h1" ≤ s4.tasks_duration none "h1" + pyInt (2 - 0) :=
  c10_duration_accumulates s4 "ok" "t1" "h1" false 2 ⟨none, "debug", 0⟩
    (by decide) (by decide) (by decide)

end Prom
